import Mathlib

/-!
Verification of the hotel-management application (`src/hotel.py`, Flask + SQLite)
against its natural-language specification.

Shallow embedding conventions:
* SQLite tables become Lean lists of structures; `AUTOINCREMENT` ids are modelled
  with explicit `next…Id` counters starting at 1.
* Calendar dates (parsed by `datetime.strptime(_, "%Y-%m-%d")` in the source) are
  modelled by their ordinal day number as an `Int`; a raw date input is an
  `Option Int`, with `none` standing for a string `strptime` rejects.  The Python
  expression `(d2 - d1).days` is then plain integer subtraction.
* Python `float` money amounts are modelled by `ℚ`; Python's bankers' rounding
  `round(x, 2)` is modelled exactly (round half to even) by `round2`.
* A route handler that flashes an error message and redirects without writing is
  modelled as returning `Except.error e`; the distinct failure modes of the source
  (distinct flash messages, distinct SQLite exception texts, and the uncaught
  `sqlite3.IntegrityError` on a foreign-key violation) are distinct `Err`
  constructors.
* The booking-transition branch of the `/bookings` route never produces an error:
  every branch flashes a success message and redirects.  It is therefore modelled
  as a total function returning the flash outcome (`TransitionMsg`) and the new
  store.
-/

/-- Room status column: `CHECK(status IN ('Available','Occupied','Maintenance'))`. -/
inductive RoomStatus
  | available
  | occupied
  | maintenance
  deriving DecidableEq

/-- Booking status column:
`CHECK(status IN ('Booked','Checked-In','Checked-Out','Cancelled'))`. -/
inductive BookingStatus
  | booked
  | checkedIn
  | checkedOut
  | cancelled
  deriving DecidableEq

/-- A row of the `rooms` table. -/
structure Room where
  id : Nat
  number : String
  rtype : String
  price : ℚ
  status : RoomStatus
  deriving DecidableEq

/-- A row of the `guests` table. -/
structure Guest where
  id : Nat
  name : String
  phone : String
  email : String
  deriving DecidableEq

/-- A row of the `bookings` table (`created_at` is not relevant to any claim and
is omitted). -/
structure Booking where
  id : Nat
  roomId : Nat
  guestId : Nat
  checkIn : Int
  checkOut : Int
  status : BookingStatus
  total : ℚ
  deriving DecidableEq

/-- The whole SQLite database. -/
structure Store where
  rooms : List Room
  guests : List Guest
  bookings : List Booking
  nextRoomId : Nat
  nextGuestId : Nat
  nextBookingId : Nat
  deriving DecidableEq

/-- A freshly initialised database (`init_db` creates the three empty tables). -/
def emptyStore : Store := ⟨[], [], [], 1, 1, 1⟩

/-- `SELECT * FROM rooms WHERE id=?` (ids are unique, so first match). -/
def findRoom (s : Store) (rid : Nat) : Option Room :=
  s.rooms.find? (fun r => r.id == rid)

/-- `SELECT * FROM guests WHERE id=?`. -/
def findGuest (s : Store) (gid : Nat) : Option Guest :=
  s.guests.find? (fun gst => gst.id == gid)

/-- `SELECT * FROM bookings WHERE id=?`. -/
def findBooking (s : Store) (bid : Nat) : Option Booking :=
  s.bookings.find? (fun b => b.id == bid)

/-- Status of the room with the given id, when it exists. -/
def roomStatus? (s : Store) (rid : Nat) : Option RoomStatus :=
  (findRoom s rid).map Room.status

/-- Status of the booking with the given id, when it exists. -/
def bookingStatus? (s : Store) (bid : Nat) : Option BookingStatus :=
  (findBooking s bid).map Booking.status

/-- The failure modes of the source, kept distinct exactly where the source
distinguishes them:
* `numberRequired`: flash `"Room number is required"`;
* `nameRequired`: flash `"Guest name is required"`;
* `integrityCheck`: `sqlite3.IntegrityError` from a `CHECK` constraint
  (`type IN (...)` or `price_per_night >= 0`), caught and flashed;
* `integrityUnique`: `sqlite3.IntegrityError` from `number TEXT UNIQUE`,
  caught and flashed;
* `invalidDates`: flash `"Invalid dates: …"`;
* `invalidRoom`: flash `"Invalid room"`;
* `fkViolation`: uncaught `sqlite3.IntegrityError` from
  `FOREIGN KEY(guest_id)` with `PRAGMA foreign_keys = ON` (a 500 response,
  not a flash). -/
inductive Err
  | numberRequired
  | nameRequired
  | integrityCheck
  | integrityUnique
  | invalidDates
  | invalidRoom
  | fkViolation
  deriving DecidableEq

/-- The allowed room categories: `CHECK(type IN ('Single','Double','Suite'))`. -/
def roomTypes : List String := ["Single", "Double", "Suite"]

/-- `SELECT 1 FROM rooms WHERE number=?` — the uniqueness test backing the
`number TEXT UNIQUE NOT NULL` column. -/
def roomNumberExists (s : Store) (number : String) : Bool :=
  s.rooms.any (fun r => r.number == number)

/-- The `POST /rooms` handler (`rooms`, src/hotel.py lines 206-222):
empty number is rejected up front; the `INSERT INTO rooms(number, type,
price_per_night)` then has SQLite evaluate the `CHECK` constraints before the
`UNIQUE` index, raising `sqlite3.IntegrityError` (caught and flashed) on
violation; `status` takes its column default `'Available'`. -/
def createRoom (s : Store) (number rtype : String) (price : ℚ) :
    Except Err (Room × Store) :=
  if number = "" then .error .numberRequired
  else if rtype ∉ roomTypes then .error .integrityCheck
  else if price < 0 then .error .integrityCheck
  else if roomNumberExists s number then .error .integrityUnique
  else
    let r : Room := ⟨s.nextRoomId, number, rtype, price, .available⟩
    .ok (r, { s with rooms := r :: s.rooms, nextRoomId := s.nextRoomId + 1 })

/-- The `POST /guests` handler (src/hotel.py lines 267-280). -/
def createGuest (s : Store) (name phone email : String) :
    Except Err (Guest × Store) :=
  if name = "" then .error .nameRequired
  else
    let gst : Guest := ⟨s.nextGuestId, name, phone, email⟩
    .ok (gst, { s with guests := gst :: s.guests, nextGuestId := s.nextGuestId + 1 })

/-- Python's `round` to an integer: round half to even (bankers' rounding). -/
def roundHalfEven (q : ℚ) : ℤ :=
  if q - (Int.floor q : ℚ) < 1 / 2 then Int.floor q
  else if 1 / 2 < q - (Int.floor q : ℚ) then Int.floor q + 1
  else if Int.floor q % 2 = 0 then Int.floor q else Int.floor q + 1

/-- Python's `round(x, 2)`. -/
def round2 (q : ℚ) : ℚ := ((roundHalfEven (q * 100) : ℤ) : ℚ) / 100

/-- `compute_total_amount` (src/hotel.py lines 144-148):
`nights = max((d2 - d1).days, 0)` and `round(price_per_night * nights, 2)`. -/
def compute_total_amount (price_per_night : ℚ) (check_in check_out : Int) : ℚ :=
  let nights : Int := max (check_out - check_in) 0
  round2 (price_per_night * (nights : ℚ))

/-- The SQL `UPDATE rooms SET status=? WHERE id=?`. -/
def updateRoomStatus (s : Store) (rid : Nat) (st : RoomStatus) : Store :=
  { s with rooms := s.rooms.map (fun r => if r.id == rid then { r with status := st } else r) }

/-- The SQL `UPDATE bookings SET status=? WHERE id=?`. -/
def updateBookingStatus (s : Store) (bid : Nat) (st : BookingStatus) : Store :=
  { s with bookings := s.bookings.map (fun b => if b.id == bid then { b with status := st } else b) }

/-- The `POST /bookings` handler (src/hotel.py lines 335-364), in source order:
1. parse the two dates and require `d_out > d_in`
   (else flash `"Invalid dates"` and redirect with no write);
2. `SELECT id, price_per_night FROM rooms WHERE id=?`
   (else flash `"Invalid room"`, no write);
3. `total = compute_total_amount(...)`;
4. `INSERT INTO bookings(...)` — with `PRAGMA foreign_keys = ON` this raises an
   uncaught `sqlite3.IntegrityError` when `guest_id` resolves to no guest, so
   nothing is committed (`fkViolation`); `status` takes its default `'Booked'`;
5. `UPDATE rooms SET status='Occupied' WHERE id=?`. -/
def createBooking (s : Store) (roomId guestId : Nat) (check_in check_out : Option Int) :
    Except Err (Booking × Store) :=
  match check_in, check_out with
  | some dIn, some dOut =>
    if dIn < dOut then
      match findRoom s roomId with
      | none => .error .invalidRoom
      | some r =>
        match findGuest s guestId with
        | none => .error .fkViolation
        | some _ =>
          let total := compute_total_amount r.price dIn dOut
          let b : Booking := ⟨s.nextBookingId, roomId, guestId, dIn, dOut, .booked, total⟩
          let s1 := { s with bookings := b :: s.bookings,
                             nextBookingId := s.nextBookingId + 1 }
          .ok (b, updateRoomStatus s1 roomId .occupied)
    else .error .invalidDates
  | _, _ => .error .invalidDates

/-- The flash message the transition branch of `/bookings` ends with.  The
source has no error path here: each recognised action flashes its success
message, anything else just redirects. -/
inductive TransitionMsg
  | checkedInMsg
  | checkedOutMsg
  | cancelledMsg
  | noMsg
  deriving DecidableEq

/-- The body shared by the three actions of the transition branch
(src/hotel.py lines 317-333):
`UPDATE bookings SET status=<bst> WHERE id=?` followed by
`UPDATE rooms SET status=<rst> WHERE id=(SELECT room_id FROM bookings WHERE id=?)`
(the scalar subquery yields `NULL`, matching no room, when the booking id does
not exist). -/
def applyAct (s : Store) (bid : Nat) (bst : BookingStatus) (rst : RoomStatus) : Store :=
  match findBooking (updateBookingStatus s bid bst) bid with
  | some b => updateRoomStatus (updateBookingStatus s bid bst) b.roomId rst
  | none => updateBookingStatus s bid bst

/-- The action branch of the `/bookings` route (src/hotel.py lines 315-333):
dispatch on the `action` query parameter; an unrecognised action runs no SQL. -/
def transition (s : Store) (action : String) (bid : Nat) : TransitionMsg × Store :=
  if action = "checkin" then
    (.checkedInMsg, applyAct s bid .checkedIn .occupied)
  else if action = "checkout" then
    (.checkedOutMsg, applyAct s bid .checkedOut .available)
  else if action = "cancel" then
    (.cancelledMsg, applyAct s bid .cancelled .available)
  else (.noMsg, s)

/-- The `/seed` route (src/hotel.py lines 468-493): when the `rooms` table is
empty it inserts rooms `101`/`102`/`201` (room `201` in `Maintenance`), and when
`guests` is empty it inserts two guests.  Lists are kept newest-first. -/
def seed (s : Store) : Store :=
  let s1 :=
    if s.rooms.isEmpty then
      { s with
          rooms := [⟨s.nextRoomId + 2, "201", "Suite", 5000, .maintenance⟩,
                    ⟨s.nextRoomId + 1, "102", "Double", 2500, .available⟩,
                    ⟨s.nextRoomId, "101", "Single", 1500, .available⟩] ++ s.rooms,
          nextRoomId := s.nextRoomId + 3 }
    else s
  if s1.guests.isEmpty then
    { s1 with
        guests := [⟨s1.nextGuestId + 1, "Isha Patel", "8888888888", "isha@example.com"⟩,
                   ⟨s1.nextGuestId, "Aarav Sharma", "9999999999", "aarav@example.com"⟩] ++ s1.guests,
        nextGuestId := s1.nextGuestId + 2 }
  else s1

/-- One user-visible mutating request of the application. -/
inductive Op
  | addRoom (number rtype : String) (price : ℚ)
  | addGuest (name phone email : String)
  | addBooking (roomId guestId : Nat) (check_in check_out : Option Int)
  | act (action : String) (bid : Nat)
  | seedAll

/-- Effect of a request on the database.  A failed request leaves the database
unchanged: the failing handlers redirect before any write, and the uncaught
foreign-key `IntegrityError` aborts before `db.commit()`. -/
def applyOp (op : Op) (s : Store) : Store :=
  match op with
  | .addRoom n t p =>
      (match createRoom s n t p with
       | .ok (_, s1) => s1
       | .error _ => s)
  | .addGuest n ph em =>
      (match createGuest s n ph em with
       | .ok (_, s1) => s1
       | .error _ => s)
  | .addBooking rid gid ci co =>
      (match createBooking s rid gid ci co with
       | .ok (_, s1) => s1
       | .error _ => s)
  | .act a bid => (transition s a bid).snd
  | .seedAll => seed s

/-- Run a sequence of requests from a given database. -/
def runOps (ops : List Op) (s : Store) : Store :=
  ops.foldl (fun st op => applyOp op st) s

/-- A database state the application can actually reach, starting from the
freshly initialised database. -/
def Reachable (s : Store) : Prop :=
  ∃ ops : List Op, runOps ops emptyStore = s

/-! ### A concrete run of the application

Room `"101"` (Single, 1500/night) is added, then guest `"Aarav"`, then two
bookings on the same room (the source performs no overlap check), then booking 1
is checked out. -/

/-- Requests of the concrete run used below. -/
def runA : List Op :=
  [Op.addRoom "101" "Single" 1500,
   Op.addGuest "Aarav" "" "",
   Op.addBooking 1 1 (some 0) (some 2),
   Op.addBooking 1 1 (some 5) (some 7),
   Op.act "checkout" 1]

/-- After adding room `"101"`. -/
def sRoom : Store := applyOp (Op.addRoom "101" "Single" 1500) emptyStore

/-- After adding guest `"Aarav"`. -/
def sGuest : Store := applyOp (Op.addGuest "Aarav" "" "") sRoom

/-- After booking 1 (room 1, guest 1, days 0 → 2). -/
def sBook1 : Store := applyOp (Op.addBooking 1 1 (some 0) (some 2)) sGuest

/-- After booking 2 on the same room (days 5 → 7). -/
def sBook2 : Store := applyOp (Op.addBooking 1 1 (some 5) (some 7)) sBook1

/-- After checking out booking 1: the full run `runA`. -/
def sOut : Store := applyOp (Op.act "checkout" 1) sBook2

/-- After cancelling booking 1 in `sBook1` instead. -/
def sCancel : Store := applyOp (Op.act "cancel" 1) sBook1

/-- The seeded database (`/seed` on the fresh store): rooms 1-3, room 3
(`"201"`) in `Maintenance`, guests 1-2. -/
def sSeed : Store := applyOp Op.seedAll emptyStore

/-- Booking 1 as stored in `sBook1`. -/
def bBook1 : Booking :=
  (findBooking sBook1 1).getD ⟨0, 0, 0, 0, 0, BookingStatus.booked, 0⟩

/-- Room 1 as stored in `sBook1`. -/
def rBook1 : Room := (findRoom sBook1 1).getD ⟨0, "", "", 0, RoomStatus.available⟩

/-- The result of the concrete successful booking creation on `sGuest`. -/
def cbRes : Except Err (Booking × Store) := createBooking sGuest 1 1 (some 0) (some 2)

/-- The booking returned by `cbRes`. -/
def bNew : Booking :=
  match cbRes with
  | .ok (b, _) => b
  | .error _ => ⟨0, 0, 0, 0, 0, BookingStatus.booked, 0⟩

/-- The store returned by `cbRes`. -/
def sNew : Store :=
  match cbRes with
  | .ok (_, s1) => s1
  | .error _ => emptyStore

/-- Room 1 as stored in `sGuest` (price 1500). -/
def rGuest : Room := (findRoom sGuest 1).getD ⟨0, "", "", 0, RoomStatus.available⟩

/-- Booking 1 as stored in `sCancel` (status `Cancelled`). -/
def bCancel : Booking :=
  (findBooking sCancel 1).getD ⟨0, 0, 0, 0, 0, BookingStatus.booked, 0⟩

/-- The result of booking the `Maintenance` room 3 of the seeded store. -/
def cbMaint : Except Err (Booking × Store) := createBooking sSeed 3 1 (some 0) (some 2)

/-- The booking returned by `cbMaint`. -/
def bMaint : Booking :=
  match cbMaint with
  | .ok (b, _) => b
  | .error _ => ⟨0, 0, 0, 0, 0, BookingStatus.booked, 0⟩

/-- The store returned by `cbMaint`. -/
def sMaint : Store :=
  match cbMaint with
  | .ok (_, s1) => s1
  | .error _ => emptyStore

/-- Booking 1 as stored in `sBook2` (where booking 2 is also active on the
same room). -/
def bTwo : Booking :=
  (findBooking sBook2 1).getD ⟨0, 0, 0, 0, 0, BookingStatus.booked, 0⟩

/-- Room 1 as stored in `sBook2`. -/
def rTwo : Room := (findRoom sBook2 1).getD ⟨0, "", "", 0, RoomStatus.available⟩

/-! ### The refuted claims, stated as the spec states them -/

/-- Claim C2 as stated: a booking in a terminal status (`Checked-Out` or
`Cancelled`) is never changed by a further `checkin`/`checkout`/`cancel`
transition on its id. -/
def c2_claimProp : Prop :=
  ∀ (s : Store) (bid : Nat) (b : Booking) (action : String),
    action ∈ (["checkin", "checkout", "cancel"] : List String) →
    findBooking s bid = some b →
    (b.status = BookingStatus.checkedOut ∨ b.status = BookingStatus.cancelled) →
    bookingStatus? (transition s action bid).snd bid = some b.status

/-- Claim C5 as stated: a `checkin` transition on a nonexistent booking id
fails (at minimum, it does not report the check-in success flash) and mutates
nothing. -/
def c5_claimProp : Prop :=
  ∀ (s : Store) (bid : Nat), findBooking s bid = none →
    (transition s "checkin" bid).fst ≠ TransitionMsg.checkedInMsg ∧
    (transition s "checkin" bid).snd = s

/-- Claim C6 as stated: with valid dates, a `createBooking` whose room id or
guest id resolves to no row fails with the source's structured not-found
failure (the `"Invalid room"` flash, the code's only `NotFoundError`-style
outcome). -/
def c6_claimProp : Prop :=
  ∀ (s : Store) (rid gid : Nat) (dIn dOut : Int), dIn < dOut →
    (findRoom s rid = none ∨ findGuest s gid = none) →
    createBooking s rid gid (some dIn) (some dOut) = Except.error Err.invalidRoom

/-- Some booking on room `rid` is in a non-terminal status
(`Booked` or `Checked-In`). -/
def activeBookingOn (s : Store) (rid : Nat) : Prop :=
  ∃ b ∈ s.bookings, b.roomId = rid ∧
    (b.status = BookingStatus.booked ∨ b.status = BookingStatus.checkedIn)

/-- The occupancy invariant of claim C1: a room is `Occupied` exactly when it
has an active booking. -/
def roomOccupancyInv (s : Store) : Prop :=
  ∀ r ∈ s.rooms, (r.status = RoomStatus.occupied ↔ activeBookingOn s r.id)

/-- The operations claim C1 calls engine operations: `createBooking` and the
transition actions. -/
def EngineOp : Op → Prop
  | Op.addBooking _ _ _ _ => True
  | Op.act _ _ => True
  | _ => False

/-- Claim C1's second conjunct: no engine operation moves a reachable
`Maintenance` room to another status. -/
def maintPreserved : Prop :=
  ∀ s, Reachable s → ∀ op, EngineOp op → ∀ r ∈ s.rooms,
    r.status = RoomStatus.maintenance →
    ∀ r2 ∈ (applyOp op s).rooms, r2.id = r.id → r2.status = RoomStatus.maintenance

/-- Claim C1 as stated: the occupancy invariant holds in every reachable state,
and engine operations never overwrite `Maintenance`. -/
def c1_claimProp : Prop := (∀ s, Reachable s → roomOccupancyInv s) ∧ maintPreserved

/-! ### Helper lemmas about row updates -/

/-- `find?` of an id-keyed update, same key: the found row is the updated row. -/
theorem find?_rooms_update (l : List Room) (rid : Nat) (st : RoomStatus) :
    (l.map (fun r => if r.id == rid then { r with status := st } else r)).find?
        (fun r => r.id == rid)
      = (l.find? (fun r => r.id == rid)).map (fun r => { r with status := st }) := by
  rw [List.find?_map]
  have hp : ((fun r : Room => r.id == rid) ∘
        fun r => if r.id == rid then { r with status := st } else r)
      = fun r : Room => r.id == rid := by
    funext r
    by_cases hr : r.id = rid <;> simp [hr]
  rw [hp]
  cases hfind : l.find? (fun r => r.id == rid) with
  | none => rfl
  | some r =>
    have pr : r.id = rid := by simpa using List.find?_some hfind
    simp [pr]

/-- `find?` of an id-keyed booking update, same key. -/
theorem find?_bookings_update (l : List Booking) (bid : Nat) (st : BookingStatus) :
    (l.map (fun b => if b.id == bid then { b with status := st } else b)).find?
        (fun b => b.id == bid)
      = (l.find? (fun b => b.id == bid)).map (fun b => { b with status := st }) := by
  rw [List.find?_map]
  have hp : ((fun b : Booking => b.id == bid) ∘
        fun b => if b.id == bid then { b with status := st } else b)
      = fun b : Booking => b.id == bid := by
    funext b
    by_cases hb : b.id = bid <;> simp [hb]
  rw [hp]
  cases hfind : l.find? (fun b => b.id == bid) with
  | none => rfl
  | some b =>
    have pb : b.id = bid := by simpa using List.find?_some hfind
    simp [pb]

/-- An `UPDATE … WHERE id=?` matching no row leaves the table unchanged. -/
theorem map_bookings_update_notfound (l : List Booking) (bid : Nat) (st : BookingStatus)
    (h : l.find? (fun b => b.id == bid) = none) :
    l.map (fun b => if b.id == bid then { b with status := st } else b) = l := by
  induction l with
  | nil => rfl
  | cons a l ih =>
    rw [List.find?_cons] at h
    by_cases ha : a.id = bid
    · simp [ha] at h
    · have ha2 : (a.id == bid) = false := by simp [ha]
      rw [ha2] at h
      simp only [] at h
      rw [List.map_cons, ih h, ha2]
      simp

theorem findRoom_updateRoomStatus (s : Store) (rid : Nat) (st : RoomStatus) :
    findRoom (updateRoomStatus s rid st) rid
      = (findRoom s rid).map (fun r => { r with status := st }) := by
  simp only [findRoom, updateRoomStatus]
  exact find?_rooms_update s.rooms rid st

theorem findBooking_updateBookingStatus (s : Store) (bid : Nat) (st : BookingStatus) :
    findBooking (updateBookingStatus s bid st) bid
      = (findBooking s bid).map (fun b => { b with status := st }) := by
  simp only [findBooking, updateBookingStatus]
  exact find?_bookings_update s.bookings bid st

theorem findBooking_updateRoomStatus (s : Store) (rid : Nat) (st : RoomStatus) (bid : Nat) :
    findBooking (updateRoomStatus s rid st) bid = findBooking s bid := rfl

theorem findRoom_updateBookingStatus (s : Store) (bid : Nat) (st : BookingStatus) (rid : Nat) :
    findRoom (updateBookingStatus s bid st) rid = findRoom s rid := rfl

/-- Effect of one transition body when the booking exists: the booking row gets
the action's booking status, and the booking's room (when present) gets the
action's room status. -/
theorem applyAct_spec (s : Store) (bid : Nat) (b : Booking)
    (hb : findBooking s bid = some b) (bst : BookingStatus) (rst : RoomStatus) :
    findBooking (applyAct s bid bst rst) bid = some { b with status := bst } ∧
    findRoom (applyAct s bid bst rst) b.roomId
      = (findRoom s b.roomId).map (fun r => { r with status := rst }) := by
  have h1 : findBooking (updateBookingStatus s bid bst) bid = some { b with status := bst } := by
    rw [findBooking_updateBookingStatus, hb]; rfl
  unfold applyAct
  rw [h1]
  constructor
  · rw [findBooking_updateRoomStatus, h1]
  · show findRoom (updateRoomStatus (updateBookingStatus s bid bst) b.roomId rst) b.roomId = _
    rw [findRoom_updateRoomStatus, findRoom_updateBookingStatus]

/-- A transition body on a nonexistent booking id touches nothing. -/
theorem applyAct_notfound (s : Store) (bid : Nat)
    (h : findBooking s bid = none) (bst : BookingStatus) (rst : RoomStatus) :
    applyAct s bid bst rst = s := by
  have h1 : updateBookingStatus s bid bst = s := by
    unfold updateBookingStatus
    rw [map_bookings_update_notfound s.bookings bid bst h]
  unfold applyAct
  rw [h1, h]

/-- Statuses after one transition body, when both the booking and its room
exist. -/
theorem applyAct_statuses (s : Store) (bid : Nat) (b : Booking) (r : Room)
    (hb : findBooking s bid = some b) (hr : findRoom s b.roomId = some r)
    (bst : BookingStatus) (rst : RoomStatus) :
    bookingStatus? (applyAct s bid bst rst) bid = some bst ∧
    roomStatus? (applyAct s bid bst rst) b.roomId = some rst := by
  obtain ⟨h1, h2⟩ := applyAct_spec s bid b hb bst rst
  constructor
  · rw [bookingStatus?, h1]; rfl
  · rw [roomStatus?, h2, hr]; rfl

/-! ### Rounding lemmas -/

theorem roundHalfEven_nonneg (q : ℚ) (h : 0 ≤ q) : 0 ≤ roundHalfEven q := by
  unfold roundHalfEven
  have hf : (0 : ℤ) ≤ Int.floor q := Int.floor_nonneg.mpr h
  split_ifs <;> omega

theorem round2_nonneg (q : ℚ) (h : 0 ≤ q) : 0 ≤ round2 q := by
  unfold round2
  have h1 : 0 ≤ roundHalfEven (q * 100) :=
    roundHalfEven_nonneg _ (mul_nonneg h (by norm_num))
  have h2 : (0 : ℚ) ≤ ((roundHalfEven (q * 100) : ℤ) : ℚ) := by exact_mod_cast h1
  positivity

theorem compute_total_amount_nonneg (p : ℚ) (hp : 0 ≤ p) (a c : Int) :
    0 ≤ compute_total_amount p a c := by
  unfold compute_total_amount
  apply round2_nonneg
  apply mul_nonneg hp
  exact_mod_cast le_max_right (c - a) 0

/-! ### Inversion of a successful booking creation -/

/-- Inverting `createBooking s rid gid ci co = ok (b, s1)`: the dates parsed
and were in order, room and guest resolved, `b` is the inserted row and `s1`
is the store after the insert and the room update. -/
theorem createBooking_ok_inv (s s1 : Store) (rid gid : Nat) (ci co : Option Int)
    (b : Booking) (hok : createBooking s rid gid ci co = Except.ok (b, s1)) :
    ∃ dIn dOut r gq, ci = some dIn ∧ co = some dOut ∧ dIn < dOut ∧
      findRoom s rid = some r ∧ findGuest s gid = some gq ∧
      b = ⟨s.nextBookingId, rid, gid, dIn, dOut, BookingStatus.booked,
           compute_total_amount r.price dIn dOut⟩ ∧
      s1 = updateRoomStatus
             { s with bookings := b :: s.bookings, nextBookingId := s.nextBookingId + 1 }
             rid RoomStatus.occupied := by
  cases ci with
  | none => simp [createBooking] at hok
  | some dIn =>
    cases co with
    | none => simp [createBooking] at hok
    | some dOut =>
      by_cases hlt : dIn < dOut
      · cases hfr : findRoom s rid with
        | none => simp [createBooking, hlt, hfr] at hok
        | some r =>
          cases hfg : findGuest s gid with
          | none => simp [createBooking, hlt, hfr, hfg] at hok
          | some gq =>
            simp only [createBooking, hlt, if_true, hfr, hfg, Except.ok.injEq,
              Prod.mk.injEq] at hok
            obtain ⟨hb, hs⟩ := hok
            refine ⟨dIn, dOut, r, gq, rfl, rfl, hlt, rfl, rfl, hb.symm, ?_⟩
            rw [← hs, hb]
      · simp [createBooking, hlt] at hok

/-! ### Claims -/

/-- Claim C3 (confirmed).  For every existing booking (with its room present,
as every booking's `room_id` is a foreign key into `rooms`), and regardless of
the booking's prior status: `checkin` sets the booking `Checked-In` and its
room `Occupied`; `checkout` sets the booking `Checked-Out` and its room
`Available`; `cancel` sets the booking `Cancelled` and its room `Available` —
each pair of `UPDATE`s is applied unconditionally. -/
theorem c3_transition_sets_statuses (s : Store) (bid : Nat) (b : Booking) (r : Room)
    (hb : findBooking s bid = some b) (hr : findRoom s b.roomId = some r) :
    (bookingStatus? (transition s "checkin" bid).snd bid = some BookingStatus.checkedIn ∧
     roomStatus? (transition s "checkin" bid).snd b.roomId = some RoomStatus.occupied) ∧
    (bookingStatus? (transition s "checkout" bid).snd bid = some BookingStatus.checkedOut ∧
     roomStatus? (transition s "checkout" bid).snd b.roomId = some RoomStatus.available) ∧
    (bookingStatus? (transition s "cancel" bid).snd bid = some BookingStatus.cancelled ∧
     roomStatus? (transition s "cancel" bid).snd b.roomId = some RoomStatus.available) := by
  refine ⟨?_, ?_, ?_⟩
  · show bookingStatus? (applyAct s bid BookingStatus.checkedIn RoomStatus.occupied) bid = _ ∧
      roomStatus? (applyAct s bid BookingStatus.checkedIn RoomStatus.occupied) b.roomId = _
    exact applyAct_statuses s bid b r hb hr _ _
  · show bookingStatus? (applyAct s bid BookingStatus.checkedOut RoomStatus.available) bid = _ ∧
      roomStatus? (applyAct s bid BookingStatus.checkedOut RoomStatus.available) b.roomId = _
    exact applyAct_statuses s bid b r hb hr _ _
  · show bookingStatus? (applyAct s bid BookingStatus.cancelled RoomStatus.available) bid = _ ∧
      roomStatus? (applyAct s bid BookingStatus.cancelled RoomStatus.available) b.roomId = _
    exact applyAct_statuses s bid b r hb hr _ _

/-- Witness for C3 at the concrete store `sBook1`, booking 1, room 1. -/
theorem c3_witness :
    (findBooking sBook1 1 = some bBook1 ∧ findRoom sBook1 bBook1.roomId = some rBook1) ∧
    ((bookingStatus? (transition sBook1 "checkin" 1).snd 1 = some BookingStatus.checkedIn ∧
      roomStatus? (transition sBook1 "checkin" 1).snd bBook1.roomId = some RoomStatus.occupied) ∧
     (bookingStatus? (transition sBook1 "checkout" 1).snd 1 = some BookingStatus.checkedOut ∧
      roomStatus? (transition sBook1 "checkout" 1).snd bBook1.roomId = some RoomStatus.available) ∧
     (bookingStatus? (transition sBook1 "cancel" 1).snd 1 = some BookingStatus.cancelled ∧
      roomStatus? (transition sBook1 "cancel" 1).snd bBook1.roomId = some RoomStatus.available)) :=
  ⟨⟨rfl, rfl⟩, c3_transition_sets_statuses sBook1 1 bBook1 rBook1 rfl rfl⟩

/-- Claim C7 (confirmed).  Whenever the posted dates do not parse to a pair
with `checkOut` strictly after `checkIn`, `createBooking` fails with the
date-validation error, inserts no booking row and changes no room status: the
whole request is the identity on the store. -/
theorem c7_invalid_dates_no_write (s : Store) (rid gid : Nat) (ci co : Option Int)
    (h : ∀ dIn dOut : Int, ci = some dIn → co = some dOut → ¬ dIn < dOut) :
    createBooking s rid gid ci co = Except.error Err.invalidDates ∧
    applyOp (Op.addBooking rid gid ci co) s = s := by
  have hcb : createBooking s rid gid ci co = Except.error Err.invalidDates := by
    cases ci with
    | none => cases co <;> rfl
    | some dIn =>
      cases co with
      | none => rfl
      | some dOut =>
        have hlt := h dIn dOut rfl rfl
        simp [createBooking, hlt]
  exact ⟨hcb, by simp [applyOp, hcb]⟩

/-- Witness for C7: days 5 → 3 on the concrete store `sGuest`. -/
theorem c7_witness :
    (∀ dIn dOut : Int,
      (some 5 : Option Int) = some dIn → (some 3 : Option Int) = some dOut → ¬ dIn < dOut) ∧
    (createBooking sGuest 1 1 (some 5) (some 3) = Except.error Err.invalidDates ∧
     applyOp (Op.addBooking 1 1 (some 5) (some 3)) sGuest = sGuest) := by
  have h : ∀ dIn dOut : Int,
      (some 5 : Option Int) = some dIn → (some 3 : Option Int) = some dOut → ¬ dIn < dOut := by
    intro dIn dOut h1 h2
    injection h1 with h1
    injection h2 with h2
    rw [← h1, ← h2]
    decide
  exact ⟨h, c7_invalid_dates_no_write sGuest 1 1 (some 5) (some 3) h⟩

/-- Claim C10 (confirmed).  An action string outside
`{checkin, checkout, cancel}` falls through every branch of the transition
dispatch: no SQL runs and the store is unchanged, for every booking id. -/
theorem c10_unknown_action_no_mutation (s : Store) (action : String) (bid : Nat)
    (h : action ∉ (["checkin", "checkout", "cancel"] : List String)) :
    (transition s action bid).snd = s := by
  have h1 : action ≠ "checkin" := fun e => h (by rw [e]; simp)
  have h2 : action ≠ "checkout" := fun e => h (by rw [e]; simp)
  have h3 : action ≠ "cancel" := fun e => h (by rw [e]; simp)
  simp [transition, h1, h2, h3]

/-- Witness for C10: the action `"frobnicate"` on `sBook1`. -/
theorem c10_witness :
    ("frobnicate" : String) ∉ (["checkin", "checkout", "cancel"] : List String) ∧
    (transition sBook1 "frobnicate" 1).snd = sBook1 :=
  ⟨by decide, c10_unknown_action_no_mutation sBook1 "frobnicate" 1 (by decide)⟩

/-- Claim C8 (confirmed).  Every successful `createBooking` leaves the
referenced room `Occupied` and the newly inserted booking row `Booked` (the
`status` column default). -/
theorem c8_create_booking_statuses (s s1 : Store) (rid gid : Nat) (ci co : Option Int)
    (b : Booking) (hok : createBooking s rid gid ci co = Except.ok (b, s1)) :
    b.status = BookingStatus.booked ∧
    bookingStatus? s1 b.id = some BookingStatus.booked ∧
    roomStatus? s1 rid = some RoomStatus.occupied := by
  obtain ⟨dIn, dOut, r, gq, _, _, _, hfr, _, hb, hs⟩ :=
    createBooking_ok_inv s s1 rid gid ci co b hok
  have hstat : b.status = BookingStatus.booked := by rw [hb]
  refine ⟨hstat, ?_, ?_⟩
  · rw [hs, bookingStatus?, findBooking_updateRoomStatus]
    have hfb : findBooking
        { s with bookings := b :: s.bookings, nextBookingId := s.nextBookingId + 1 } b.id
        = some b := by
      simp [findBooking, List.find?_cons]
    rw [hfb, Option.map_some', hstat]
  · rw [hs, roomStatus?, findRoom_updateRoomStatus]
    have hfr2 : findRoom
        { s with bookings := b :: s.bookings, nextBookingId := s.nextBookingId + 1 } rid
        = some r := hfr
    rw [hfr2, Option.map_some', Option.map_some']

/-- Witness for C8 at the concrete creation on `sGuest`. -/
theorem c8_witness :
    createBooking sGuest 1 1 (some 0) (some 2) = Except.ok (bNew, sNew) ∧
    (bNew.status = BookingStatus.booked ∧
     bookingStatus? sNew bNew.id = some BookingStatus.booked ∧
     roomStatus? sNew 1 = some RoomStatus.occupied) :=
  ⟨rfl, c8_create_booking_statuses sGuest sNew 1 1 (some 0) (some 2) bNew rfl⟩

/-- Claim C4 (confirmed).  For a room with non-negative nightly price and
dates with `checkOut` strictly after `checkIn`, the total stored by
`createBooking` is `round(price * (checkOut - checkIn).days, 2)`; it is
non-negative, and `compute_total_amount` is non-negative on every date pair
(for reversed dates the night count is clamped to 0). -/
theorem c4_total_amount (s s1 : Store) (rid gid : Nat) (dIn dOut : Int)
    (r : Room) (b : Booking)
    (hr : findRoom s rid = some r) (hp : 0 ≤ r.price) (hd : dIn < dOut)
    (hok : createBooking s rid gid (some dIn) (some dOut) = Except.ok (b, s1)) :
    b.total = round2 (r.price * ((dOut - dIn : Int) : ℚ)) ∧
    0 ≤ b.total ∧
    ∀ a c : Int, 0 ≤ compute_total_amount r.price a c := by
  obtain ⟨dIn2, dOut2, r2, gq, hci, hco, _, hfr, _, hb, _⟩ :=
    createBooking_ok_inv s s1 rid gid (some dIn) (some dOut) b hok
  injection hci with hci
  injection hco with hco
  rw [← hci] at hb
  rw [← hco] at hb
  rw [hr] at hfr
  injection hfr with hfr
  rw [← hfr] at hb
  have htot : b.total = compute_total_amount r.price dIn dOut := by rw [hb]
  refine ⟨?_, ?_, fun a c => compute_total_amount_nonneg r.price hp a c⟩
  · rw [htot]
    unfold compute_total_amount
    rw [max_eq_left (Int.sub_nonneg.mpr (le_of_lt hd))]
  · rw [htot]
    exact compute_total_amount_nonneg r.price hp dIn dOut

/-- Witness for C4 at the concrete creation on `sGuest` (1500/night, 2 nights). -/
theorem c4_witness :
    (findRoom sGuest 1 = some rGuest ∧ 0 ≤ rGuest.price ∧ (0 : Int) < 2 ∧
     createBooking sGuest 1 1 (some 0) (some 2) = Except.ok (bNew, sNew)) ∧
    (bNew.total = round2 (rGuest.price * (((2 : Int) - (0 : Int) : Int) : ℚ)) ∧
     0 ≤ bNew.total ∧
     ∀ a c : Int, 0 ≤ compute_total_amount rGuest.price a c) := by
  have hp : 0 ≤ rGuest.price := by
    have e : rGuest.price = (1500 : ℚ) := rfl
    rw [e]
    norm_num
  exact ⟨⟨rfl, hp, by decide, rfl⟩,
    c4_total_amount sGuest sNew 1 1 0 2 rGuest bNew rfl hp (by decide) rfl⟩

/-- Claim C9 (confirmed).  `createRoom` always returns a room whose status is
`Available` (the column default); with a non-empty number, valid category and
non-negative price, a duplicate number fails with the `UNIQUE`-constraint
error (the spec's `ConflictError`); an invalid category or negative price
fails with the `CHECK`-constraint error (the spec's `ValidationError`, raised
by SQLite before the unique index is touched); and every failure leaves the
store unchanged. -/
theorem c9_create_room (s : Store) (number rtype : String) (price : ℚ) :
    (∀ r s1, createRoom s number rtype price = Except.ok (r, s1) →
      r.status = RoomStatus.available) ∧
    (number ≠ "" → rtype ∈ roomTypes → 0 ≤ price → roomNumberExists s number = true →
      createRoom s number rtype price = Except.error Err.integrityUnique) ∧
    (number ≠ "" → (rtype ∉ roomTypes ∨ price < 0) →
      createRoom s number rtype price = Except.error Err.integrityCheck) ∧
    (∀ e, createRoom s number rtype price = Except.error e →
      applyOp (Op.addRoom number rtype price) s = s) := by
  refine ⟨?_, ?_, ?_, ?_⟩
  · intro r s1 h
    unfold createRoom at h
    split_ifs at h
    simp only [Except.ok.injEq, Prod.mk.injEq] at h
    rw [← h.1]
  · intro h1 h2 h3 h4
    unfold createRoom
    rw [if_neg h1, if_neg (not_not_intro h2), if_neg (not_lt.mpr h3), if_pos h4]
  · intro h1 h2
    unfold createRoom
    rw [if_neg h1]
    cases h2 with
    | inl h3 => rw [if_pos h3]
    | inr h3 =>
      by_cases h4 : rtype ∈ roomTypes
      · rw [if_neg (not_not_intro h4), if_pos h3]
      · rw [if_pos h4]
  · intro e he
    simp [applyOp, he]

/-- Witness for C9: re-adding room number `"101"` to `sRoom`. -/
theorem c9_witness :
    (("101" : String) ≠ "" ∧ ("Single" : String) ∈ roomTypes ∧ (0 : ℚ) ≤ 1500 ∧
     roomNumberExists sRoom "101" = true) ∧
    createRoom sRoom "101" "Single" 1500 = Except.error Err.integrityUnique := by
  have h1 : ("101" : String) ≠ "" := by decide
  have h2 : ("Single" : String) ∈ roomTypes := by decide
  have h3 : (0 : ℚ) ≤ 1500 := by norm_num
  have h4 : roomNumberExists sRoom "101" = true := rfl
  exact ⟨⟨h1, h2, h3, h4⟩, (c9_create_room sRoom "101" "Single" 1500).2.1 h1 h2 h3 h4⟩

/-- Counterexample to C2: in `sCancel` booking 1 is `Cancelled` (terminal),
yet `transition sCancel "checkin" 1` changes its status to `Checked-In` — the
source applies the `UPDATE` unconditionally. -/
theorem c2_counterexample : ¬ c2_claimProp := by
  intro h
  have hb : findBooking sCancel 1 = some bCancel := rfl
  have hst : bCancel.status = BookingStatus.cancelled := rfl
  have h2 := h sCancel 1 bCancel "checkin" (by decide) hb (Or.inr hst)
  have h3 : bookingStatus? (transition sCancel "checkin" 1).snd 1
      = some BookingStatus.checkedIn := rfl
  rw [h3, hst] at h2
  exact BookingStatus.noConfusion (Option.some.inj h2)

/-- Claim C2, amended (proved).  Terminal statuses are not immutable: each
transition writes the action's fixed target status regardless of the
booking's prior status.  A terminal booking therefore keeps its status only
when the action that produced it is re-applied (`checkout` on a `Checked-Out`
booking, `cancel` on a `Cancelled` one), while `checkin` moves even a
terminal booking back to `Checked-In`. -/
theorem c2_amended_unconditional_overwrite (s : Store) (bid : Nat) (b : Booking)
    (hb : findBooking s bid = some b) :
    bookingStatus? (transition s "checkout" bid).snd bid = some BookingStatus.checkedOut ∧
    bookingStatus? (transition s "cancel" bid).snd bid = some BookingStatus.cancelled ∧
    bookingStatus? (transition s "checkin" bid).snd bid = some BookingStatus.checkedIn := by
  refine ⟨?_, ?_, ?_⟩
  · show bookingStatus? (applyAct s bid BookingStatus.checkedOut RoomStatus.available) bid = _
    rw [bookingStatus?, (applyAct_spec s bid b hb _ _).1]
    rfl
  · show bookingStatus? (applyAct s bid BookingStatus.cancelled RoomStatus.available) bid = _
    rw [bookingStatus?, (applyAct_spec s bid b hb _ _).1]
    rfl
  · show bookingStatus? (applyAct s bid BookingStatus.checkedIn RoomStatus.occupied) bid = _
    rw [bookingStatus?, (applyAct_spec s bid b hb _ _).1]
    rfl

/-- Witness for amended C2 at the cancelled booking of `sCancel`. -/
theorem c2_amended_witness :
    findBooking sCancel 1 = some bCancel ∧
    (bookingStatus? (transition sCancel "checkout" 1).snd 1 = some BookingStatus.checkedOut ∧
     bookingStatus? (transition sCancel "cancel" 1).snd 1 = some BookingStatus.cancelled ∧
     bookingStatus? (transition sCancel "checkin" 1).snd 1 = some BookingStatus.checkedIn) :=
  ⟨rfl, c2_amended_unconditional_overwrite sCancel 1 bCancel rfl⟩

/-- Counterexample to C5: on the empty store with booking id 1 the source
flashes `"Guest checked in ✔"` — the success outcome — rather than any
`NotFoundError`; the route has no error path at all. -/
theorem c5_counterexample : ¬ c5_claimProp := by
  intro h
  exact (h emptyStore 1 rfl).1 rfl

/-- Claim C5, amended (proved).  A `checkin` transition on a nonexistent
booking id performs no mutation — both `UPDATE`s match no row, since the
scalar subquery for the room yields `NULL` — but it does not fail: the
handler reports the check-in success flash. -/
theorem c5_amended_silent_noop (s : Store) (bid : Nat)
    (h : findBooking s bid = none) :
    transition s "checkin" bid = (TransitionMsg.checkedInMsg, s) := by
  have e : transition s "checkin" bid
      = (TransitionMsg.checkedInMsg,
         applyAct s bid BookingStatus.checkedIn RoomStatus.occupied) := rfl
  rw [e, applyAct_notfound s bid h]

/-- Witness for amended C5: booking id 2 does not exist in `sBook1`. -/
theorem c5_amended_witness :
    findBooking sBook1 2 = none ∧
    transition sBook1 "checkin" 2 = (TransitionMsg.checkedInMsg, sBook1) :=
  ⟨rfl, c5_amended_silent_noop sBook1 2 rfl⟩

/-- Counterexample to C6: in `sRoom` room 1 exists but guest 1 does not; the
handler never checks the guest, so the `INSERT` dies on the foreign-key
constraint with an uncaught `sqlite3.IntegrityError` (a 500 response), not
the structured not-found failure. -/
theorem c6_counterexample : ¬ c6_claimProp := by
  intro h
  have h2 := h sRoom 1 1 0 2 (by decide) (Or.inr rfl)
  have h3 : createBooking sRoom 1 1 (some 0) (some 2)
      = Except.error Err.fkViolation := rfl
  rw [h3] at h2
  exact Err.noConfusion (Except.error.inj h2)

/-- Claim C6, amended (proved).  With valid dates: a nonexistent room id
fails with the structured `"Invalid room"` failure; an existing room with a
nonexistent guest id fails with the uncaught foreign-key `IntegrityError`;
in either case no booking row is created and no room status changes — the
request leaves the store untouched. -/
theorem c6_amended_not_found_outcomes (s : Store) (rid gid : Nat) (dIn dOut : Int)
    (hd : dIn < dOut) :
    (findRoom s rid = none →
      createBooking s rid gid (some dIn) (some dOut) = Except.error Err.invalidRoom) ∧
    (∀ r, findRoom s rid = some r → findGuest s gid = none →
      createBooking s rid gid (some dIn) (some dOut) = Except.error Err.fkViolation) ∧
    ((findRoom s rid = none ∨ findGuest s gid = none) →
      applyOp (Op.addBooking rid gid (some dIn) (some dOut)) s = s) := by
  have e1 : findRoom s rid = none →
      createBooking s rid gid (some dIn) (some dOut) = Except.error Err.invalidRoom := by
    intro hn
    simp [createBooking, hd, hn]
  have e2 : ∀ r, findRoom s rid = some r → findGuest s gid = none →
      createBooking s rid gid (some dIn) (some dOut) = Except.error Err.fkViolation := by
    intro r hr hg
    simp [createBooking, hd, hr, hg]
  refine ⟨e1, e2, ?_⟩
  intro hor
  cases hor with
  | inl hn => simp [applyOp, e1 hn]
  | inr hg =>
    cases hfr : findRoom s rid with
    | none => simp [applyOp, e1 hfr]
    | some r => simp [applyOp, e2 r hfr hg]

/-- Witness for amended C6 at `sRoom` (room 1 exists, guest table empty). -/
theorem c6_amended_witness :
    ((0 : Int) < 2) ∧
    ((findRoom sRoom 1 = none →
       createBooking sRoom 1 1 (some 0) (some 2) = Except.error Err.invalidRoom) ∧
     (∀ r, findRoom sRoom 1 = some r → findGuest sRoom 1 = none →
       createBooking sRoom 1 1 (some 0) (some 2) = Except.error Err.fkViolation) ∧
     ((findRoom sRoom 1 = none ∨ findGuest sRoom 1 = none) →
       applyOp (Op.addBooking 1 1 (some 0) (some 2)) sRoom = sRoom)) :=
  ⟨by decide, c6_amended_not_found_outcomes sRoom 1 1 0 2 (by decide)⟩

/-- Counterexample to C1: the reachable state `sOut` (two bookings created on
room 1, then booking 1 checked out) has room 1 `Available` while booking 2 is
still `Booked` — `checkout` writes `Available` without consulting the other
bookings of the room. -/
theorem c1_counterexample : ¬ c1_claimProp := by
  intro h
  have hreach : Reachable sOut := ⟨runA, rfl⟩
  have hinv := h.1 sOut hreach
  have hnot : ¬ roomOccupancyInv sOut := by
    unfold roomOccupancyInv activeBookingOn
    decide
  exact hnot hinv

/-- Claim C1, amended (proved).  Room status is not derived from the set of
active bookings, and `Maintenance` is not protected from the engine: each
operation writes a fixed status to the booking's room.  In particular a
successful `createBooking` sets a `Maintenance` room to `Occupied`, and a
`checkout` transition sets the booking's room to `Available` even when the
store holds other bookings (possibly still active) on that same room. -/
theorem c1_amended_fixed_status_writes (s t : Store) (rid gid bid : Nat)
    (ci co : Option Int) (b : Booking) (s1 : Store) (b2 : Booking) (r2 : Room)
    (hok : createBooking s rid gid ci co = Except.ok (b, s1))
    (_hm : roomStatus? s rid = some RoomStatus.maintenance)
    (hb2 : findBooking t bid = some b2)
    (hr2 : findRoom t b2.roomId = some r2) :
    roomStatus? s1 rid = some RoomStatus.occupied ∧
    roomStatus? (transition t "checkout" bid).snd b2.roomId = some RoomStatus.available := by
  constructor
  · obtain ⟨dIn, dOut, r, gq, _, _, _, hfr, _, _, hs⟩ :=
      createBooking_ok_inv s s1 rid gid ci co b hok
    rw [hs, roomStatus?, findRoom_updateRoomStatus]
    have hfr2 : findRoom
        { s with bookings := b :: s.bookings, nextBookingId := s.nextBookingId + 1 } rid
        = some r := hfr
    rw [hfr2, Option.map_some', Option.map_some']
  · show roomStatus? (applyAct t bid BookingStatus.checkedOut RoomStatus.available)
      b2.roomId = _
    exact (applyAct_statuses t bid b2 r2 hb2 hr2 _ _).2

/-- Witness for amended C1: booking the seeded `Maintenance` room 3, and
checking out booking 1 of `sBook2` while booking 2 is still `Booked`. -/
theorem c1_amended_witness :
    (createBooking sSeed 3 1 (some 0) (some 2) = Except.ok (bMaint, sMaint) ∧
     roomStatus? sSeed 3 = some RoomStatus.maintenance ∧
     findBooking sBook2 1 = some bTwo ∧
     findRoom sBook2 bTwo.roomId = some rTwo) ∧
    (roomStatus? sMaint 3 = some RoomStatus.occupied ∧
     roomStatus? (transition sBook2 "checkout" 1).snd bTwo.roomId
       = some RoomStatus.available) :=
  ⟨⟨rfl, rfl, rfl, rfl⟩,
   c1_amended_fixed_status_writes sSeed sBook2 3 1 1 (some 0) (some 2) bMaint sMaint
     bTwo rTwo rfl rfl rfl rfl⟩
